import Mathlib

/-!
Shallow embedding of `pycoin/tx/script/checksigops.py`: the signature-check
opcodes of a Bitcoin-style script VM (CHECKSIG / CHECKMULTISIG and helpers).

Byte strings are `List Nat` with each entry a byte value `0..255`.  Python
exceptions are modelled by `Except Exc`; a `ScriptError(msg, errno)` carries an
optional error code (a one-argument `ScriptError(msg)` carries none).  The
external collaborators (the `ecdsa` math, DER decode, SEC key decode, the
per-hash-type digest function and the stack machine's integer decoding) are
bundled in an `Env` record, so every theorem quantifies over their behaviour.
-/

namespace PycoinChecksig

/-- Error codes of the `errno` module (a closed enumeration per spec section 6;
the module itself is outside `src/`, only the names are used here). -/
inductive Errno
  | SIG_DER
  | SIG_HIGH_S
  | SIG_HASHTYPE
  | PUBKEYTYPE
  | WITNESS_PUBKEYTYPE
  | NULLFAIL
  | SIG_NULLDUMMY
  | PUBKEY_COUNT
  | SIG_COUNT
  | VERIFY
deriving DecidableEq, Repr

/-- Python exceptions reachable from `checksigops.py`.  `scriptError` is the
typed `ScriptError(msg, errno)`; a one-argument raise has code `none`.  The
others model `der.UnexpectedDER`, `ValueError`, `EncodingError`,
`ecdsa.NoSuchPointError` and `IndexError`. -/
inductive Exc
  | scriptError (msg : String) (code : Option Errno)
  | unexpectedDER
  | valueError
  | encodingError
  | noSuchPointError
  | indexError
deriving DecidableEq, Repr

/-- A raw byte string popped from the stack (each entry a byte `0..255`). -/
abbrev Blob := List Nat

/-- An opaque elliptic-curve public pair; only equality is ever used on it. -/
abbrev Point := Nat

/-- The verification flag bits consumed by `checksigops.py` (`VERIFY_STRICTENC`,
`VERIFY_DERSIG`, `VERIFY_LOW_S`, `VERIFY_NULLDUMMY`, `VERIFY_NULLFAIL`,
`VERIFY_WITNESS_PUBKEYTYPE`), one boolean per bit. -/
structure Flags where
  strictenc : Bool := false
  dersig : Bool := false
  low_s : Bool := false
  nulldummy : Bool := false
  nullfail : Bool := false
  witness_pubkeytype : Bool := false
deriving DecidableEq, Repr

/-- External collaborators (spec section 6), outside `src/`:
`der.sigdecode_der` (in the broken-OpenSSL-compatible mode), `sec_to_public_pair`,
`ecdsa.possible_public_pairs_for_signature`, `vm.signature_for_hash_type_f`
(the digest is an opaque `Nat`), `ecdsa.verify`, and the script-number decoding
behind `vm.pop_int`. -/
structure Env where
  sigdecode_der : Blob → Except Exc (Int × Int)
  sec_to_public_pair : Blob → Bool → Except Exc Point
  possible_public_pairs_for_signature : Nat → (Int × Int) → Except Exc (List Point)
  signature_for_hash_type_f : Nat → List Blob → Nat
  verify : Point → Nat → (Int × Int) → Bool
  decode_int : Blob → Int

/-- The slice of VM state `checksigops.py` touches: the operand stack (head is
the top), the flag set and the external operation counter `vm.op_count`. -/
structure VM where
  stack : List Blob
  flags : Flags
  op_count : Int
deriving DecidableEq, Repr

/-- Modelled from the spec: `vm.VM_FALSE`, the falsy boolean pushed by the
opcodes (the empty byte string of the host VM, which is outside `src/`). -/
def VM_FALSE : Blob := []

/-- Modelled from the spec: `vm.VM_TRUE`, the truthy boolean pushed by the
opcodes (the one-byte string `\x01` of the host VM, which is outside `src/`). -/
def VM_TRUE : Blob := [1]

/-- Modelled from the spec: `SIGHASH_ALL` from `flags`, the standard Bitcoin
value of the first defined sighash base type (spec section 3: the low bits of
the hash-type byte select one of ALL/NONE/SINGLE). -/
def SIGHASH_ALL : Nat := 1

/-- Modelled from the spec: `SIGHASH_NONE`, the second defined base type. -/
def SIGHASH_NONE : Nat := 2

/-- Modelled from the spec: `SIGHASH_SINGLE`, the third defined base type. -/
def SIGHASH_SINGLE : Nat := 3

/-- Modelled from the spec: `SIGHASH_ANYONECANPAY`, the independent high-bit
modifier `0x80` of the hash-type byte. -/
def SIGHASH_ANYONECANPAY : Nat := 128

/-- Modelled from the spec: `ecdsa.generator_secp256k1.curve().p()`, the field
prime of the standard secp256k1 curve provided by the `ecdsa` collaborator
(outside `src/`); this is the value `2^256 - 2^32 - 977`. -/
def secp256k1_p : Nat :=
  115792089237316195423570985008687907853269984665640564039457584007908834671663

/-- Modelled from the spec: the secp256k1 group order (the spec's
`curve_order`, `ecdsa.generator_secp256k1.order()` of the `ecdsa`
collaborator outside `src/`). -/
def secp256k1_order : Nat :=
  115792089237316195423570985008687907852837564279074904382605163141518161494337

/-- Source `intbytes.byte2int(blob)`: the first byte, `IndexError` on an empty blob. -/
def byte2int : Blob → Except Exc Nat
  | [] => .error .indexError
  | b :: _ => .ok b

/-- Source `_check_valid_signature_1(sig)`: the coarse DER structure pass, over the
whole blob including the trailing hash-type byte.  Indexing uses `getD 0`;
every index read is guarded in bounds by the checks before it. -/
def _check_valid_signature_1 (sig : Blob) : Except Exc Unit :=
  let ls := sig.length
  if ls < 9 ∨ 73 < ls then
    .error (.scriptError "bad signature size" (some .SIG_DER))
  else if sig.getD 0 0 ≠ 48 then
    .error (.scriptError "bad signature byte 0" (some .SIG_DER))
  else if sig.getD 1 0 ≠ ls - 3 then
    .error (.scriptError "signature size wrong" (some .SIG_DER))
  else
    let r_len := sig.getD 3 0
    if ls ≤ 5 + r_len then
      .error (.scriptError "r length exceed signature size" (some .SIG_DER))
    else .ok ()

/-- Source `_check_valid_signature_2(sig)`: the fine DER structure pass.  A Python
truthiness test `sig[i] & 0x80` is modelled as `≠ 0`.  The two leading-zero
messages drop the apostrophe of the source text but are otherwise the same. -/
def _check_valid_signature_2 (sig : Blob) : Except Exc Unit :=
  let ls := sig.length
  let r_len := sig.getD 3 0
  let s_len := sig.getD (5 + r_len) 0
  if r_len + s_len + 7 ≠ ls then
    .error (.scriptError "r and s size exceed signature size" (some .SIG_DER))
  else if sig.getD 2 0 ≠ 2 then
    .error (.scriptError "R value region does not start with 0x02" (some .SIG_DER))
  else if r_len = 0 then
    .error (.scriptError "zero-length R value" (some .SIG_DER))
  else if sig.getD 4 0 &&& 128 ≠ 0 then
    .error (.scriptError "sig R value not allowed to be negative" (some .SIG_DER))
  else if 1 < r_len ∧ sig.getD 4 0 = 0 ∧ sig.getD 5 0 &&& 128 = 0 then
    .error (.scriptError
      "R value cannot have leading 0 byte unless doing so would make it negative"
      (some .SIG_DER))
  else if sig.getD (r_len + 4) 0 ≠ 2 then
    .error (.scriptError "S value region does not start with 0x02" (some .SIG_DER))
  else if s_len = 0 then
    .error (.scriptError "zero-length S value" (some .SIG_DER))
  else if sig.getD (r_len + 6) 0 &&& 128 ≠ 0 then
    .error (.scriptError "negative S values not allowed" (some .SIG_DER))
  else if 1 < s_len ∧ sig.getD (r_len + 6) 0 = 0 ∧ sig.getD (r_len + 7) 0 &&& 128 = 0 then
    .error (.scriptError
      "S value cannot have leading 0 byte unless doing so would make it negative"
      (some .SIG_DER))
  else .ok ()

/-- Source `check_valid_signature(sig)`: pass 1 then pass 2 (the `iterbytes`
conversion is the identity on byte lists). -/
def check_valid_signature (sig : Blob) : Except Exc Unit :=
  match _check_valid_signature_1 sig with
  | .error e => .error e
  | .ok _ => _check_valid_signature_2 sig

/-- Source `check_low_der_signature(sig_pair)`: the low-S check.  Note the source
computes `hi_s = ecdsa.generator_secp256k1.curve().p() - s`, i.e. it uses the
secp256k1 field prime, not the group order. -/
def check_low_der_signature (sig_pair : Int × Int) : Except Exc Unit :=
  let s := sig_pair.2
  let hi_s : Int := (secp256k1_p : Int) - s
  if hi_s < s then
    .error (.scriptError "signature has high S value" (some .SIG_HIGH_S))
  else .ok ()

/-- Source `check_defined_hashtype_signature(sig)`: reject an empty blob (with a
code-less `ScriptError`), then require the final byte, with the
ANYONECANPAY bit stripped (`& ~0x80` on a byte value is `&&& 127`), to lie in
`[SIGHASH_ALL, SIGHASH_SINGLE]`. -/
def check_defined_hashtype_signature (sig : Blob) : Except Exc Unit :=
  if sig.length = 0 then
    .error (.scriptError "signature is length 0" none)
  else
    let hash_type := (sig.getLast?).getD 0 &&& 127
    if hash_type < SIGHASH_ALL ∨ SIGHASH_SINGLE < hash_type then
      .error (.scriptError "bad hash type after signature" (some .SIG_HASHTYPE))
    else .ok ()

/-- Source `check_public_key_encoding(blob)`: accept exactly a 65-byte blob starting
`0x04` or a 33-byte blob starting `0x02`/`0x03`; anything else fails with
`PUBKEYTYPE`. -/
def check_public_key_encoding (blob : Blob) : Except Exc Unit :=
  if 33 ≤ blob.length then
    let fb := blob.headD 0
    if fb = 4 then
      (if blob.length = 65 then .ok ()
       else .error (.scriptError "invalid public key blob" (some .PUBKEYTYPE)))
    else if fb = 2 ∨ fb = 3 then
      (if blob.length = 33 then .ok ()
       else .error (.scriptError "invalid public key blob" (some .PUBKEYTYPE)))
    else .error (.scriptError "invalid public key blob" (some .PUBKEYTYPE))
  else .error (.scriptError "invalid public key blob" (some .PUBKEYTYPE))

/-- Source `parse_signature_blob(sig_blob, flags)`: reject an empty blob with
`ValueError`; run the DER structure check if any of DERSIG/LOW_S/STRICTENC is
set; run the hash-type check if STRICTENC is set; always DER-decode
`sig_blob[:-1]`; read the hash-type tag `ord(sig_blob[-1:])`; run the low-S
check if LOW_S is set. -/
def parse_signature_blob (E : Env) (sig_blob : Blob) (flags : Flags) :
    Except Exc ((Int × Int) × Nat) :=
  if sig_blob.length = 0 then .error .valueError
  else
    match (if flags.dersig || flags.low_s || flags.strictenc then
             check_valid_signature sig_blob
           else .ok ()) with
    | .error e => .error e
    | .ok _ =>
      match (if flags.strictenc then check_defined_hashtype_signature sig_blob
             else .ok ()) with
      | .error e => .error e
      | .ok _ =>
        match E.sigdecode_der sig_blob.dropLast with
        | .error e => .error e
        | .ok sig_pair =>
          let signature_type := (sig_blob.getLast?).getD 0
          match (if flags.low_s then check_low_der_signature sig_pair else .ok ()) with
          | .error e => .error e
          | .ok _ => .ok (sig_pair, signature_type)

/-- The signature-blob parsing pipeline exactly as the spec words it
(section 4.5): structure validation only if STRICTENC, DERSIG or LOW_S is set;
hash-type validation only if STRICTENC is set; the decode to the integer pair
unconditionally; the low-S check only if LOW_S is set; the first failure, in
that fixed order, propagates.  Used only to compare against
`parse_signature_blob`, which is translated from the source. -/
def parse_signature_blob_spec (E : Env) (sig_blob : Blob) (flags : Flags) :
    Except Exc ((Int × Int) × Nat) :=
  match (if flags.strictenc || flags.dersig || flags.low_s then
           check_valid_signature sig_blob
         else .ok ()) with
  | .error e => .error e
  | .ok _ =>
    match (if flags.strictenc then check_defined_hashtype_signature sig_blob
           else .ok ()) with
    | .error e => .error e
    | .ok _ =>
      match E.sigdecode_der sig_blob.dropLast with
      | .error e => .error e
      | .ok sig_pair =>
        match (if flags.low_s then check_low_der_signature sig_pair else .ok ()) with
        | .error e => .error e
        | .ok _ => .ok (sig_pair, (sig_blob.getLast?).getD 0)

/-- The exception classes caught by `do_OP_CHECKSIG`'s `try` block:
`(der.UnexpectedDER, ValueError, EncodingError)`. -/
def isSoftExc : Exc → Bool
  | .unexpectedDER => true
  | .valueError => true
  | .encodingError => true
  | _ => false

/-- The body of `do_OP_CHECKSIG`'s `try` block after the two pops: the
STRICTENC key-encoding check, the WITNESS_PUBKEYTYPE shape check, the
signature-blob parse and the SEC key decode, in source order. -/
def checksig_checks (E : Env) (flags : Flags) (pair_blob sig_blob : Blob) :
    Except Exc ((Int × Int) × Nat × Point) :=
  match (if flags.strictenc then check_public_key_encoding pair_blob else .ok ()) with
  | .error e => .error e
  | .ok _ =>
    match ((if flags.witness_pubkeytype then
              match byte2int pair_blob with
              | .error e => .error e
              | .ok fb =>
                if ¬(fb = 2 ∨ fb = 3) ∨ pair_blob.length ≠ 33 then
                  .error (.scriptError "uncompressed key in witness"
                    (some .WITNESS_PUBKEYTYPE))
                else .ok ()
            else .ok ()) : Except Exc Unit) with
    | .error e => .error e
    | .ok _ =>
      match parse_signature_blob E sig_blob flags with
      | .error e => .error e
      | .ok (sig_pair, signature_type) =>
        match E.sec_to_public_pair pair_blob flags.strictenc with
        | .error e => .error e
        | .ok public_pair => .ok (sig_pair, signature_type, public_pair)

/-- Source `do_OP_CHECKSIG(vm)`: pop the key blob then the signature blob (a pop on a
short stack is an uncaught `IndexError`); run the checks; on a caught
decode exception push `VM_FALSE` and return normally; on any other exception
propagate it; otherwise ECDSA-verify and push the boolean, escalating a failed
verification of a non-empty blob to a hard `NULLFAIL` error under that flag.
The returned pair is the final VM state together with the propagated
exception, if any (Python mutates `vm` in place before raising). -/
def do_OP_CHECKSIG (E : Env) (vm : VM) : VM × Option Exc :=
  match vm.stack with
  | [] => (vm, some .indexError)
  | [_] => ({ vm with stack := [] }, some .indexError)
  | pair_blob :: sig_blob :: rest =>
    match checksig_checks E vm.flags pair_blob sig_blob with
    | .error e =>
      if isSoftExc e then ({ vm with stack := VM_FALSE :: rest }, none)
      else ({ vm with stack := rest }, some e)
    | .ok (sig_pair, signature_type, public_pair) =>
      let signature_hash := E.signature_for_hash_type_f signature_type [sig_blob]
      if E.verify public_pair signature_hash sig_pair then
        ({ vm with stack := VM_TRUE :: rest }, none)
      else if vm.flags.nullfail = true ∧ 0 < sig_blob.length then
        ({ vm with stack := rest },
          some (.scriptError "bad signature not NULL" (some .NULLFAIL)))
      else ({ vm with stack := VM_FALSE :: rest }, none)

/-- Source `find_public_pair(public_pair_blobs, ppp, signature_count, strict_encoding,
verify_witness_pubkeytype, ppb_idx)`: scan the given key-blob list, but only
while more blobs remain than `signature_count`, incrementing `ppb_idx` for each
blob taken; validate encodings as configured; decode the key (an
`EncodingError` yields no pair); return the current `ppb_idx` on the first
candidate-set hit, `-1` when the scan stops. -/
def find_public_pair (E : Env) (strict_encoding verify_witness_pubkeytype : Bool)
    (ppp : List Point) (signature_count : Nat) :
    List Blob → Int → Except Exc Int
  | [], _ => .ok (-1)
  | public_pair_blob :: rest, ppb_idx =>
    if signature_count < rest.length + 1 then
      match (if strict_encoding then check_public_key_encoding public_pair_blob
             else .ok ()) with
      | .error e => .error e
      | .ok _ =>
        match ((if verify_witness_pubkeytype then
                  match byte2int public_pair_blob with
                  | .error e => .error e
                  | .ok fb =>
                    if ¬(fb = 2 ∨ fb = 3) ∨ public_pair_blob.length ≠ 33 then
                      .error (.scriptError "uncompressed key in witness"
                        (some .WITNESS_PUBKEYTYPE))
                    else .ok ()
                else .ok ()) : Except Exc Unit) with
        | .error e => .error e
        | .ok _ =>
          match ((match E.sec_to_public_pair public_pair_blob strict_encoding with
                  | Except.ok p => Except.ok (some p)
                  | Except.error Exc.encodingError => Except.ok (none : Option Point)
                  | Except.error e => Except.error e) :
                 Except Exc (Option Point)) with
          | .error e => .error e
          | .ok public_pair =>
            if (match public_pair with
                | some p => ppp.contains p
                | none => false) then .ok (ppb_idx + 1)
            else
              find_public_pair E strict_encoding verify_witness_pubkeytype ppp
                signature_count rest (ppb_idx + 1)
    else .ok (-1)

/-- The `while` loop of `sig_blob_matches`: loop while signature blobs remain
and no more of them than key blobs; stop once a `-1` has been recorded; a
caught `der.UnexpectedDER` or `ValueError` from the parse records `-1` and
continues; otherwise compute the digest (memoized per hash-type tag in
`sig_cache`), recover the candidate point set (`NoSuchPointError` gives the
empty set) and scan for a key with `find_public_pair` — note the full original
`public_pair_blobs` list is passed on every iteration. -/
def sig_blob_matches_loop (E : Env) (flags : Flags) (strict_encoding : Bool)
    (blobs_to_remove public_pair_blobs : List Blob) :
    List Blob → List (Nat × Nat) → List Int → Int → Except Exc (List Int)
  | [], _, sig_blob_indices, _ => .ok sig_blob_indices
  | sig_blob :: rest, sig_cache, sig_blob_indices, ppb_idx =>
    if rest.length + 1 ≤ public_pair_blobs.length then
      if (-1 : Int) ∈ sig_blob_indices then .ok sig_blob_indices
      else
        match parse_signature_blob E sig_blob flags with
        | .error .unexpectedDER =>
          sig_blob_matches_loop E flags strict_encoding blobs_to_remove
            public_pair_blobs rest sig_cache (sig_blob_indices ++ [-1]) ppb_idx
        | .error .valueError =>
          sig_blob_matches_loop E flags strict_encoding blobs_to_remove
            public_pair_blobs rest sig_cache (sig_blob_indices ++ [-1]) ppb_idx
        | .error e => .error e
        | .ok (sig_pair, signature_type) =>
          let cached := sig_cache.lookup signature_type
          let digest := match cached with
            | some d => d
            | none => E.signature_for_hash_type_f signature_type blobs_to_remove
          let sig_cache := match cached with
            | some _ => sig_cache
            | none => sig_cache ++ [(signature_type, digest)]
          match ((match E.possible_public_pairs_for_signature digest sig_pair with
                  | Except.ok l => Except.ok l
                  | Except.error Exc.noSuchPointError => Except.ok ([] : List Point)
                  | Except.error e => Except.error e) :
                 Except Exc (List Point)) with
          | .error e => .error e
          | .ok ppp =>
            match find_public_pair E strict_encoding flags.witness_pubkeytype ppp
                rest.length public_pair_blobs ppb_idx with
            | .error e => .error e
            | .ok new_idx =>
              sig_blob_matches_loop E flags strict_encoding blobs_to_remove
                public_pair_blobs rest sig_cache (sig_blob_indices ++ [new_idx]) new_idx
    else .ok sig_blob_indices

/-- Source `sig_blob_matches(vm, sig_blobs, public_pair_blobs, flags)`: run the loop
with an empty cache and index list, cursor `-1`, and `blobs_to_remove` a copy
of the original signature blobs. -/
def sig_blob_matches (E : Env) (flags : Flags)
    (sig_blobs public_pair_blobs : List Blob) : Except Exc (List Int) :=
  sig_blob_matches_loop E flags flags.strictenc sig_blobs public_pair_blobs
    sig_blobs [] [] (-1)

/-- Pops as in `[vm.pop() for _ in range(n)]`: `n` pops, or `none` when the stack runs
short (in which case every element was consumed before the `IndexError`). -/
def popN : List Blob → Nat → Option (List Blob × List Blob)
  | s, 0 => some ([], s)
  | [], _ + 1 => none
  | b :: t, n + 1 =>
    match popN t n with
    | some (xs, r) => some (b :: xs, r)
    | none => none

/-- The defensive re-check of `do_OP_CHECKMULTISIG` (`for i in range(...):
if sig_blob_indices[i] >= sig_blob_indices[i+1]: break / else: ok`): true iff
every adjacent pair of recorded indices is strictly increasing. -/
def strictlyIncreasingAdj : List Int → Bool
  | [] => true
  | [_] => true
  | a :: b :: t => decide (a < b) && strictlyIncreasingAdj (b :: t)

/-- Source `do_OP_CHECKMULTISIG(vm)`: pop the key count and add it to `vm.op_count`
before the 0..20 range check; pop that many key blobs; pop the signature count
(range 0..key_count); pop that many signature blobs; pop the dummy byte
(must be empty under NULLDUMMY); run the matcher; accept iff no `-1` was
recorded, one index per signature blob was recorded and the indices pass the
strictly-increasing re-check; escalate a failed match to a hard `NULLFAIL`
error when that flag is set and any signature blob is non-empty; otherwise
push the boolean. -/
def do_OP_CHECKMULTISIG (E : Env) (vm : VM) : VM × Option Exc :=
  match vm.stack with
  | [] => (vm, some .indexError)
  | kc_blob :: s1 =>
    let key_count : Int := E.decode_int kc_blob
    let oc := vm.op_count + key_count
    if key_count < 0 ∨ 20 < key_count then
      ({ vm with stack := s1, op_count := oc },
        some (.scriptError "key_count not in range 0 to 20" (some .PUBKEY_COUNT)))
    else
      match popN s1 key_count.toNat with
      | none => ({ vm with stack := [], op_count := oc }, some .indexError)
      | some (public_pair_blobs, s2) =>
        match s2 with
        | [] => ({ vm with stack := [], op_count := oc }, some .indexError)
        | sc_blob :: s3 =>
          let signature_count : Int := E.decode_int sc_blob
          if signature_count < 0 ∨ key_count < signature_count then
            ({ vm with stack := s3, op_count := oc },
              some (.scriptError ("invalid number of signatures: " ++
                toString signature_count ++ " for " ++ toString key_count ++ " keys")
                (some .SIG_COUNT)))
          else
            match popN s3 signature_count.toNat with
            | none => ({ vm with stack := [], op_count := oc }, some .indexError)
            | some (sig_blobs, s4) =>
              match s4 with
              | [] => ({ vm with stack := [], op_count := oc }, some .indexError)
              | hack_byte :: s5 =>
                if vm.flags.nulldummy = true ∧ hack_byte ≠ [] then
                  ({ vm with stack := s5, op_count := oc },
                    some (.scriptError "bad dummy byte in checkmultisig"
                      (some .SIG_NULLDUMMY)))
                else
                  match sig_blob_matches E vm.flags sig_blobs public_pair_blobs with
                  | .error e => ({ vm with stack := s5, op_count := oc }, some e)
                  | .ok sig_blob_indices =>
                    let sig_ok :=
                      if (-1 : Int) ∉ sig_blob_indices ∧
                          sig_blob_indices.length = sig_blobs.length then
                        (if strictlyIncreasingAdj sig_blob_indices then VM_TRUE
                         else VM_FALSE)
                      else VM_FALSE
                    if sig_ok = VM_FALSE ∧ vm.flags.nullfail = true ∧
                        sig_blobs.any (fun b => decide (0 < b.length)) = true then
                      ({ vm with stack := s5, op_count := oc },
                        some (.scriptError "bad signature not NULL" (some .NULLFAIL)))
                    else
                      ({ vm with stack := sig_ok :: s5, op_count := oc }, none)

/-- A concrete, fully computable instantiation of the external collaborators,
used by the closed witness evaluations: DER decode reads the first byte as r,
key decode reads the first byte as the point, the candidate set for a
signature pair (r, s) is the single point r, the digest is the hash-type tag,
ECDSA verification always fails, and script numbers are read from the first
byte. -/
def testEnv : Env where
  sigdecode_der := fun b => .ok ((b.headD 0 : Int), 1)
  sec_to_public_pair := fun b _ => .ok (b.headD 0)
  possible_public_pairs_for_signature := fun _ sp => .ok [sp.1.toNat]
  signature_for_hash_type_f := fun t _ => t
  verify := fun _ _ _ => false
  decode_int := fun b => (b.headD 0 : Int)

/-- Decidable equality of `Except` results, so closed runs evaluate with
`decide`. -/
instance instDecEqExcept {ε α : Type} [DecidableEq ε] [DecidableEq α] :
    DecidableEq (Except ε α) := fun x y =>
  match x, y with
  | Except.error e, Except.error f =>
    if h : e = f then isTrue (congrArg Except.error h)
    else isFalse (fun hh => h (Except.error.inj hh))
  | Except.ok a, Except.ok b =>
    if h : a = b then isTrue (congrArg Except.ok h)
    else isFalse (fun hh => h (Except.ok.inj hh))
  | Except.error _, Except.ok _ => isFalse (fun hh => Except.noConfusion hh)
  | Except.ok _, Except.error _ => isFalse (fun hh => Except.noConfusion hh)

/-- Lemma: `popN` splits off an exact-length prefix. -/
theorem popN_append (xs ys : List Blob) : popN (xs ++ ys) xs.length = some (xs, ys) := by
  induction xs with
  | nil => simp [popN]
  | cons b t ih => simp [popN, ih]

/-- C2.  The canonical-form (low-S) checker accepts iff `s <= curve_order - s`
(rejecting with `SIG_HIGH_S` otherwise), and in particular for s > order/2 the
complement is accepted.  This is FALSE of the code: `check_low_der_signature`
compares s against the secp256k1 FIELD PRIME `curve().p()`, not the group
order, so at `s = (order + 1) / 2` — which is strictly above `order - s` and
must be rejected per the claim — the code accepts.  The first conjunct
evaluates the source function at that failing input; the second verifies the
input really is in the high half of the order. -/
theorem check_low_der_signature_accepts_high_s_above_half_order :
    check_low_der_signature (1, ((secp256k1_order + 1) / 2 : Int)) = .ok () ∧
    (secp256k1_order : Int) - (secp256k1_order + 1) / 2 < (secp256k1_order + 1) / 2 := by
  constructor
  · decide
  · decide

/-- C3 counterexample.  The claim says every rejection of the hashtype
validator — including the empty-blob rejection — signals error code
`SIG_HASHTYPE`.  In the code the empty-blob raise is `ScriptError("signature
is length 0")` with no error code at all. -/
theorem check_defined_hashtype_empty_lacks_code :
    check_defined_hashtype_signature [] =
      .error (.scriptError "signature is length 0" none) ∧
    (none : Option Errno) ≠ some Errno.SIG_HASHTYPE := by
  exact ⟨rfl, by decide⟩

set_option maxRecDepth 8192 in
/-- C3 as amended.  The hashtype validator: rejects the empty blob with a
code-less script error; on a non-empty blob whose final byte is `b` it accepts
iff `b` is one of ALL/NONE/SINGLE optionally OR'd with ANYONECANPAY, and every
rejection of a non-empty blob signals `SIG_HASHTYPE`. -/
theorem check_defined_hashtype_characterization :
    (check_defined_hashtype_signature [] =
      .error (.scriptError "signature is length 0" none)) ∧
    ∀ (sig : Blob) (b : Nat), sig.getLast? = some b → b < 256 →
      ((check_defined_hashtype_signature sig = .ok () ↔
        (b = SIGHASH_ALL ∨ b = SIGHASH_NONE ∨ b = SIGHASH_SINGLE ∨
         b = SIGHASH_ALL ||| SIGHASH_ANYONECANPAY ∨
         b = SIGHASH_NONE ||| SIGHASH_ANYONECANPAY ∨
         b = SIGHASH_SINGLE ||| SIGHASH_ANYONECANPAY)) ∧
       (check_defined_hashtype_signature sig = .ok () ∨
        check_defined_hashtype_signature sig =
          .error (.scriptError "bad hash type after signature" (some .SIG_HASHTYPE)))) := by
  constructor
  · rfl
  · intro sig b hlast hb
    have hne : sig ≠ [] := by
      intro hcon
      rw [hcon] at hlast
      exact Option.noConfusion hlast
    have hlen : ¬(sig.length = 0) := by
      simpa [List.length_eq_zero] using hne
    have hred : check_defined_hashtype_signature sig =
        (if b &&& 127 < SIGHASH_ALL ∨ SIGHASH_SINGLE < b &&& 127 then
          .error (.scriptError "bad hash type after signature" (some .SIG_HASHTYPE))
        else .ok ()) := by
      unfold check_defined_hashtype_signature
      rw [if_neg hlen, hlast]
      rfl
    rw [hred]
    clear hred hlast hne hlen
    revert hb
    revert b
    decide

/-- Witness for the amended C3 theorem at the concrete blob `[1]`
(final byte `SIGHASH_ALL`). -/
theorem check_defined_hashtype_characterization_witness :
    ((check_defined_hashtype_signature [1] = .ok () ↔
      (1 = SIGHASH_ALL ∨ 1 = SIGHASH_NONE ∨ 1 = SIGHASH_SINGLE ∨
       1 = SIGHASH_ALL ||| SIGHASH_ANYONECANPAY ∨
       1 = SIGHASH_NONE ||| SIGHASH_ANYONECANPAY ∨
       1 = SIGHASH_SINGLE ||| SIGHASH_ANYONECANPAY)) ∧
     (check_defined_hashtype_signature [1] = .ok () ∨
      check_defined_hashtype_signature [1] =
        .error (.scriptError "bad hash type after signature" (some .SIG_HASHTYPE)))) :=
  check_defined_hashtype_characterization.2 [1] 1 rfl (by decide)

/-- C4.  For every blob whose total length (hash-type byte included) is
outside `[9, 73]`, strict-DER validation rejects with code `SIG_DER` (the size
check is the very first check of pass 1). -/
theorem check_valid_signature_size_bounds (sig : Blob)
    (h : sig.length < 9 ∨ 73 < sig.length) :
    check_valid_signature sig =
      .error (.scriptError "bad signature size" (some .SIG_DER)) := by
  have h1 : _check_valid_signature_1 sig =
      .error (.scriptError "bad signature size" (some .SIG_DER)) := by
    unfold _check_valid_signature_1
    rw [if_pos h]
  unfold check_valid_signature
  rw [h1]

/-- Witness for C4 at the empty blob (length 0 < 9). -/
theorem check_valid_signature_size_bounds_witness :
    check_valid_signature [] =
      .error (.scriptError "bad signature size" (some .SIG_DER)) :=
  check_valid_signature_size_bounds [] (by decide)

/-- C5.  On every non-empty blob and every flag combination, the source's
`parse_signature_blob` coincides with the pipeline exactly as the spec words
it: DER structure validation only if STRICTENC, DERSIG or LOW_S; hash-type
validation only if STRICTENC; the decode to the pair always; low-S only if
LOW_S; first failure in that fixed order propagates. -/
theorem parse_signature_blob_refines_spec (E : Env) (sig_blob : Blob) (flags : Flags)
    (h : sig_blob ≠ []) :
    parse_signature_blob E sig_blob flags = parse_signature_blob_spec E sig_blob flags := by
  have hlen : ¬(sig_blob.length = 0) := by
    simpa [List.length_eq_zero] using h
  unfold parse_signature_blob parse_signature_blob_spec
  rw [if_neg hlen]
  obtain ⟨se, de, ls, nd, nf, wp⟩ := flags
  cases se <;> cases de <;> cases ls <;> rfl

/-- Witness for C5 at a concrete environment, blob and flag set. -/
theorem parse_signature_blob_refines_spec_witness :
    parse_signature_blob testEnv [1, 1] { strictenc := true } =
      parse_signature_blob_spec testEnv [1, 1] { strictenc := true } :=
  parse_signature_blob_refines_spec testEnv [1, 1] { strictenc := true } (by decide)

/-- C10.  `do_OP_CHECKMULTISIG` adds the popped key count to `vm.op_count`
before validating it against the range 0..20: on the `PUBKEY_COUNT` hard-error
path the counter has already been changed by the (out-of-range) key count. -/
theorem checkmultisig_op_count_incremented_before_range_check
    (E : Env) (vm : VM) (kc_blob : Blob) (rest : List Blob)
    (hstack : vm.stack = kc_blob :: rest)
    (h : E.decode_int kc_blob < 0 ∨ 20 < E.decode_int kc_blob) :
    do_OP_CHECKMULTISIG E vm =
      ({ vm with stack := rest, op_count := vm.op_count + E.decode_int kc_blob },
        some (.scriptError "key_count not in range 0 to 20" (some .PUBKEY_COUNT))) := by
  simp only [do_OP_CHECKMULTISIG, hstack]
  rw [if_pos h]

/-- Witness for C10: key count 21 (> 20) leaves `op_count` at 0 + 21 = 21 on
the `PUBKEY_COUNT` error path. -/
theorem checkmultisig_op_count_incremented_before_range_check_witness :
    do_OP_CHECKMULTISIG testEnv { stack := [[21], [9]], flags := {}, op_count := 0 } =
      ({ stack := [[9]], flags := {}, op_count := 21 },
        some (.scriptError "key_count not in range 0 to 20" (some .PUBKEY_COUNT))) :=
  checkmultisig_op_count_incremented_before_range_check testEnv
    { stack := [[21], [9]], flags := {}, op_count := 0 } [21] [[9]] rfl (by decide)

/-- Unfolding of `do_OP_CHECKSIG` on a stack holding at least two blobs. -/
theorem do_OP_CHECKSIG_cons (E : Env) (vm : VM) (pair_blob sig_blob : Blob)
    (rest : List Blob) (hstack : vm.stack = pair_blob :: sig_blob :: rest) :
    do_OP_CHECKSIG E vm =
      (match checksig_checks E vm.flags pair_blob sig_blob with
       | .error e =>
         if isSoftExc e then ({ vm with stack := VM_FALSE :: rest }, none)
         else ({ vm with stack := rest }, some e)
       | .ok (sig_pair, signature_type, public_pair) =>
         if E.verify public_pair (E.signature_for_hash_type_f signature_type [sig_blob])
             sig_pair then
           ({ vm with stack := VM_TRUE :: rest }, none)
         else if vm.flags.nullfail = true ∧ 0 < sig_blob.length then
           ({ vm with stack := rest },
             some (.scriptError "bad signature not NULL" (some .NULLFAIL)))
         else ({ vm with stack := VM_FALSE :: rest }, none)) := by
  simp only [do_OP_CHECKSIG, hstack]

/-- An error of the public-key encoding validator is always the `PUBKEYTYPE`
script error. -/
theorem check_public_key_encoding_error (k : Blob) (e : Exc)
    (he : check_public_key_encoding k = .error e) :
    e = .scriptError "invalid public key blob" (some .PUBKEYTYPE) := by
  unfold check_public_key_encoding at he
  split_ifs at he <;> simp_all <;> split_ifs at he <;> simp_all

/-- C6.  In CHECKSIG: with STRICTENC set, a bad public-key encoding raises
immediately — the `PUBKEYTYPE` script error propagates out of the opcode as a
hard failure (first conjunct; the second part of its conclusion pins the
error down to `PUBKEYTYPE`).  By contrast, whenever the try-block checks
(signature-blob parse, key decode) fail with one of the caught decode
exceptions `der.UnexpectedDER` / `ValueError` / `EncodingError`, the opcode
pushes boolean false and returns normally (second conjunct). -/
theorem checksig_hard_vs_soft_fail (E : Env) (vm : VM) (pair_blob sig_blob : Blob)
    (rest : List Blob) (hstack : vm.stack = pair_blob :: sig_blob :: rest) :
    (vm.flags.strictenc = true →
      ∀ e, check_public_key_encoding pair_blob = .error e →
        do_OP_CHECKSIG E vm = ({ vm with stack := rest }, some e) ∧
        e = .scriptError "invalid public key blob" (some .PUBKEYTYPE)) ∧
    (∀ e, checksig_checks E vm.flags pair_blob sig_blob = .error e →
      isSoftExc e = true →
      do_OP_CHECKSIG E vm = ({ vm with stack := VM_FALSE :: rest }, none)) := by
  constructor
  · intro hse e he
    have hcode := check_public_key_encoding_error pair_blob e he
    have hchecks : checksig_checks E vm.flags pair_blob sig_blob = .error e := by
      simp only [checksig_checks, hse, if_true, he]
    refine ⟨?_, hcode⟩
    rw [do_OP_CHECKSIG_cons E vm pair_blob sig_blob rest hstack, hchecks]
    have hsoft : isSoftExc e = false := by rw [hcode]; rfl
    simp [hsoft]
  · intro e he hsoft
    rw [do_OP_CHECKSIG_cons E vm pair_blob sig_blob rest hstack, he]
    simp [hsoft]

/-- Witness for C6: under STRICTENC an empty key blob hard-fails the opcode
with `PUBKEYTYPE` (first conjunct of the theorem, instantiated). -/
theorem checksig_hard_vs_soft_fail_witness :
    do_OP_CHECKSIG testEnv
        { stack := [[], [2, 1]], flags := { strictenc := true }, op_count := 0 } =
      ({ stack := [], flags := { strictenc := true }, op_count := 0 },
        some (.scriptError "invalid public key blob" (some .PUBKEYTYPE))) := by
  have h := (checksig_hard_vs_soft_fail testEnv
    { stack := [[], [2, 1]], flags := { strictenc := true }, op_count := 0 }
    [] [2, 1] [] rfl).1 rfl
    (.scriptError "invalid public key blob" (some .PUBKEYTYPE)) rfl
  exact h.1

/-- Decomposition of a `do_OP_CHECKMULTISIG` run whose pops succeed, whose
counts are in range, whose dummy byte satisfies NULLDUMMY and whose matcher
returns normally: the final state is decided by the recorded match indices
through the accept condition, the NULLFAIL escalation and the pushed
boolean. -/
theorem do_OP_CHECKMULTISIG_run (E : Env) (vm : VM) (kc_blob sc_blob dummy : Blob)
    (keys sigs rest : List Blob) (n m : Nat) (indices : List Int)
    (hstack : vm.stack = kc_blob :: (keys ++ sc_blob :: (sigs ++ dummy :: rest)))
    (hn : E.decode_int kc_blob = (n : Int)) (hn20 : n ≤ 20)
    (hkeys : keys.length = n)
    (hm : E.decode_int sc_blob = (m : Int)) (hmn : m ≤ n)
    (hsigs : sigs.length = m)
    (hdummy : vm.flags.nulldummy = true → dummy = [])
    (hmatch : sig_blob_matches E vm.flags sigs keys = .ok indices) :
    do_OP_CHECKMULTISIG E vm =
      (if ((-1 : Int) ∉ indices ∧ indices.length = sigs.length) ∧
          strictlyIncreasingAdj indices = true then
        ({ vm with stack := VM_TRUE :: rest, op_count := vm.op_count + (n : Int) }, none)
      else if vm.flags.nullfail = true ∧
          sigs.any (fun b => decide (0 < b.length)) = true then
        ({ vm with stack := rest, op_count := vm.op_count + (n : Int) },
          some (.scriptError "bad signature not NULL" (some .NULLFAIL)))
      else
        ({ vm with stack := VM_FALSE :: rest, op_count := vm.op_count + (n : Int) },
          none)) := by
  have hr1 : ¬((n : Int) < 0 ∨ 20 < (n : Int)) := by omega
  have hr2 : ¬((m : Int) < 0 ∨ (n : Int) < (m : Int)) := by omega
  have hpop1 : popN (keys ++ sc_blob :: (sigs ++ dummy :: rest)) n =
      some (keys, sc_blob :: (sigs ++ dummy :: rest)) := by
    rw [← hkeys]; exact popN_append keys (sc_blob :: (sigs ++ dummy :: rest))
  have hpop2 : popN (sigs ++ dummy :: rest) m = some (sigs, dummy :: rest) := by
    rw [← hsigs]; exact popN_append sigs (dummy :: rest)
  have hdc : ¬(vm.flags.nulldummy = true ∧ dummy ≠ []) := by
    rintro ⟨h1, h2⟩; exact h2 (hdummy h1)
  simp only [do_OP_CHECKMULTISIG, hstack, hn, hm, Int.toNat_natCast, hpop1, hpop2,
    hmatch, if_neg hr1, if_neg hr2, if_neg hdc]
  by_cases hA : ((-1 : Int) ∉ indices ∧ indices.length = sigs.length) <;>
  by_cases hB : strictlyIncreasingAdj indices = true <;>
  by_cases hC : vm.flags.nullfail = true ∧
    sigs.any (fun b => decide (0 < b.length)) = true <;>
  simp [hA, hB, hC, VM_TRUE, VM_FALSE]

/-- C8.  On a run whose pops succeed, whose counts are in range, whose dummy
byte satisfies NULLDUMMY and whose matcher returns the index list `indices`:
CHECKMULTISIG pushes true iff no `-1` is present, there are exactly as many
indices as signature blobs, and the indices are strictly increasing; in every
other case (absent the NULLFAIL hard-fail escalation) it pushes false. -/
theorem checkmultisig_accept_iff (E : Env) (vm : VM) (kc_blob sc_blob dummy : Blob)
    (keys sigs rest : List Blob) (n m : Nat) (indices : List Int)
    (hstack : vm.stack = kc_blob :: (keys ++ sc_blob :: (sigs ++ dummy :: rest)))
    (hn : E.decode_int kc_blob = (n : Int)) (hn20 : n ≤ 20)
    (hkeys : keys.length = n)
    (hm : E.decode_int sc_blob = (m : Int)) (hmn : m ≤ n)
    (hsigs : sigs.length = m)
    (hdummy : vm.flags.nulldummy = true → dummy = [])
    (hmatch : sig_blob_matches E vm.flags sigs keys = .ok indices) :
    (do_OP_CHECKMULTISIG E vm =
        ({ vm with stack := VM_TRUE :: rest, op_count := vm.op_count + (n : Int) },
          none) ↔
      ((-1 : Int) ∉ indices ∧ indices.length = sigs.length ∧
        strictlyIncreasingAdj indices = true)) ∧
    (¬((-1 : Int) ∉ indices ∧ indices.length = sigs.length ∧
        strictlyIncreasingAdj indices = true) →
      ¬(vm.flags.nullfail = true ∧ sigs.any (fun b => decide (0 < b.length)) = true) →
      do_OP_CHECKMULTISIG E vm =
        ({ vm with stack := VM_FALSE :: rest, op_count := vm.op_count + (n : Int) },
          none)) := by
  have hrun := do_OP_CHECKMULTISIG_run E vm kc_blob sc_blob dummy keys sigs rest n m
    indices hstack hn hn20 hkeys hm hmn hsigs hdummy hmatch
  rw [hrun]
  by_cases hP : ((-1 : Int) ∉ indices ∧ indices.length = sigs.length) ∧
      strictlyIncreasingAdj indices = true
  · rw [if_pos hP]
    exact ⟨⟨fun _ => and_assoc.mp hP, fun _ => rfl⟩,
      fun hno _ => absurd (and_assoc.mp hP) hno⟩
  · rw [if_neg hP]
    constructor
    · constructor
      · intro heq
        by_cases hC : vm.flags.nullfail = true ∧
            sigs.any (fun b => decide (0 < b.length)) = true
        · rw [if_pos hC] at heq
          exact absurd heq (by simp)
        · rw [if_neg hC] at heq
          exact absurd heq (by simp [VM_TRUE, VM_FALSE])
      · intro hacc
        exact absurd (and_assoc.mpr hacc) hP
    · intro hno hC
      rw [if_neg hC]

/-- Witness for C8: two keys, one signature matching the second key, empty
dummy — CHECKMULTISIG pushes true (match-index sequence `[1]`). -/
theorem checkmultisig_accept_iff_witness :
    do_OP_CHECKMULTISIG testEnv
        { stack := [[2], [7], [2], [1], [2, 1], []], flags := {}, op_count := 0 } =
      ({ stack := [VM_TRUE], flags := {}, op_count := 2 }, none) :=
  (checkmultisig_accept_iff testEnv
      { stack := [[2], [7], [2], [1], [2, 1], []], flags := {}, op_count := 0 }
      [2] [1] [] [[7], [2]] [[2, 1]] [] 2 1 [1] rfl rfl (by decide) rfl rfl
      (by decide) rfl (fun _ => rfl) (by decide)).1.mpr (by decide)

/-- No blob of a list of empty blobs is non-empty. -/
theorem any_replicate_empty (m : Nat) :
    (List.replicate m ([] : Blob)).any (fun b => decide (0 < b.length)) = false := by
  induction m with
  | zero => rfl
  | succ k ih => simp only [List.replicate_succ, List.any_cons, ih]; rfl

/-- The matcher on at least one and only empty signature blobs records a
single `-1` (the parse of an empty blob fails with a caught `ValueError`) and
stops. -/
theorem sig_blob_matches_all_empty (E : Env) (flags : Flags) (m : Nat)
    (pubs : List Blob) (hm : 1 ≤ m) (hle : m ≤ pubs.length) :
    sig_blob_matches E flags (List.replicate m []) pubs = .ok [-1] := by
  obtain ⟨k, rfl⟩ : ∃ k, m = k + 1 := ⟨m - 1, by omega⟩
  have hparse : parse_signature_blob E [] flags = .error .valueError := rfl
  unfold sig_blob_matches
  simp only [List.replicate_succ, sig_blob_matches_loop]
  rw [if_pos (by simpa using hle)]
  simp only [List.not_mem_nil, if_neg (fun h => h), hparse, List.nil_append]
  cases k with
  | zero => rfl
  | succ j =>
    simp only [List.replicate_succ, sig_blob_matches_loop]
    split
    · rw [if_pos (by simp)]
    · rfl

/-- C7.  The NULLFAIL escalation.  (a) CHECKSIG: on a stack `key :: sig ::
rest` with NULLFAIL set, when the checks succeed but ECDSA verification fails
and the signature blob is non-empty, the opcode hard-fails with `NULLFAIL`.
(b) CHECKSIG: on an empty signature blob (no strict-key flags), the opcode
instead pushes false and returns normally.  (c) CHECKMULTISIG: with NULLFAIL
set, a failed match with any non-empty signature blob present hard-fails with
`NULLFAIL`.  (d) CHECKMULTISIG: the same run with only empty signature blobs
instead pushes false and returns normally. -/
theorem nullfail_escalation (E : Env) (vm : VM) :
    (∀ (pair_blob sig_blob : Blob) (rest : List Blob)
        (sig_pair : Int × Int) (signature_type : Nat) (public_pair : Point),
      vm.stack = pair_blob :: sig_blob :: rest →
      vm.flags.nullfail = true →
      checksig_checks E vm.flags pair_blob sig_blob =
        .ok (sig_pair, signature_type, public_pair) →
      E.verify public_pair
        (E.signature_for_hash_type_f signature_type [sig_blob]) sig_pair = false →
      sig_blob ≠ [] →
      do_OP_CHECKSIG E vm = ({ vm with stack := rest },
        some (.scriptError "bad signature not NULL" (some .NULLFAIL)))) ∧
    (∀ (pair_blob : Blob) (rest : List Blob),
      vm.stack = pair_blob :: ([] : Blob) :: rest →
      vm.flags.strictenc = false →
      vm.flags.witness_pubkeytype = false →
      do_OP_CHECKSIG E vm = ({ vm with stack := VM_FALSE :: rest }, none)) ∧
    (∀ (kc_blob sc_blob dummy : Blob) (keys sigs rest : List Blob)
        (n m : Nat) (indices : List Int),
      vm.stack = kc_blob :: (keys ++ sc_blob :: (sigs ++ dummy :: rest)) →
      E.decode_int kc_blob = (n : Int) → n ≤ 20 → keys.length = n →
      E.decode_int sc_blob = (m : Int) → m ≤ n → sigs.length = m →
      (vm.flags.nulldummy = true → dummy = []) →
      sig_blob_matches E vm.flags sigs keys = .ok indices →
      ¬(((-1 : Int) ∉ indices ∧ indices.length = sigs.length) ∧
        strictlyIncreasingAdj indices = true) →
      vm.flags.nullfail = true →
      sigs.any (fun b => decide (0 < b.length)) = true →
      do_OP_CHECKMULTISIG E vm =
        ({ vm with stack := rest, op_count := vm.op_count + (n : Int) },
          some (.scriptError "bad signature not NULL" (some .NULLFAIL)))) ∧
    (∀ (kc_blob sc_blob dummy : Blob) (keys rest : List Blob) (n m : Nat),
      vm.stack = kc_blob ::
        (keys ++ sc_blob :: (List.replicate m ([] : Blob) ++ dummy :: rest)) →
      E.decode_int kc_blob = (n : Int) → n ≤ 20 → keys.length = n →
      E.decode_int sc_blob = (m : Int) → 1 ≤ m → m ≤ n →
      (vm.flags.nulldummy = true → dummy = []) →
      do_OP_CHECKMULTISIG E vm =
        ({ vm with stack := VM_FALSE :: rest, op_count := vm.op_count + (n : Int) },
          none)) := by
  refine ⟨?_, ?_, ?_, ?_⟩
  · intro pair_blob sig_blob rest sig_pair signature_type public_pair
      hstack hnf hchecks hverify hne
    rw [do_OP_CHECKSIG_cons E vm pair_blob sig_blob rest hstack, hchecks]
    have hlen : 0 < sig_blob.length := by
      cases sig_blob
      · exact absurd rfl hne
      · simp
    simp only [hverify, Bool.false_eq_true, if_false]
    rw [if_pos ⟨hnf, hlen⟩]
  · intro pair_blob rest hstack hse hwp
    have hchecks : checksig_checks E vm.flags pair_blob [] = .error .valueError := by
      have hparse : parse_signature_blob E [] vm.flags = .error .valueError := rfl
      simp only [checksig_checks, hse, hwp, Bool.false_eq_true, if_false, hparse]
    rw [do_OP_CHECKSIG_cons E vm pair_blob [] rest hstack, hchecks]
    rfl
  · intro kc_blob sc_blob dummy keys sigs rest n m indices
      hstack hn hn20 hkeys hm hmn hsigs hdummy hmatch hacc hnf hany
    rw [do_OP_CHECKMULTISIG_run E vm kc_blob sc_blob dummy keys sigs rest n m
      indices hstack hn hn20 hkeys hm hmn hsigs hdummy hmatch]
    rw [if_neg hacc, if_pos ⟨hnf, hany⟩]
  · intro kc_blob sc_blob dummy keys rest n m
      hstack hn hn20 hkeys hm hm1 hmn hdummy
    have hmatch := sig_blob_matches_all_empty E vm.flags m keys hm1 (by omega)
    rw [do_OP_CHECKMULTISIG_run E vm kc_blob sc_blob dummy keys
      (List.replicate m []) rest n m [-1] hstack hn hn20 hkeys hm hmn
      (by simp) hdummy hmatch]
    rw [if_neg (by simp)]
    rw [if_neg (by simp [any_replicate_empty m])]

/-- Witness for C7, conjunct (a): NULLFAIL set, a non-empty signature blob
whose verification fails — CHECKSIG hard-fails with `NULLFAIL`. -/
theorem nullfail_escalation_witness :
    do_OP_CHECKSIG testEnv
        { stack := [[7], [2, 1]], flags := { nullfail := true }, op_count := 0 } =
      ({ stack := [], flags := { nullfail := true }, op_count := 0 },
        some (.scriptError "bad signature not NULL" (some .NULLFAIL))) :=
  (nullfail_escalation testEnv
      { stack := [[7], [2, 1]], flags := { nullfail := true }, op_count := 0 }).1
    [7] [2, 1] [] (2, 1) 1 7 rfl rfl (by decide) rfl (by decide)

/-- C1.  The claim: signatures supplied in an order inconsistent with the key
order (requiring a decreasing key index) make CHECKMULTISIG push false, since
the key scan resumes only after the previous match and a key is never reused.
This is FALSE of the code: `sig_blob_matches` passes the FULL original key
list to every `find_public_pair` call, which rescans it from position 0 while
labelling keys with a cursor that only ever advances.  Here keys K0, K1, K2
decode to points 2, 1, 99; signature blob `[1,1]` recovers exactly point 1
(key index 1) and `[2,1]` recovers exactly point 2 (key index 0) — matching
them needs the decreasing index order 1, 0 — yet the matcher reports the
"strictly increasing" labels [1, 2] (contradicting its own docstring, which
says it returns indices into the key list) and the opcode pushes true. -/
theorem checkmultisig_out_of_order_accepted :
    sig_blob_matches testEnv {} [[1, 1], [2, 1]] [[2], [1], [99]] = .ok [1, 2] ∧
    do_OP_CHECKMULTISIG testEnv
        { stack := [[3], [2], [1], [99], [2], [1, 1], [2, 1], []],
          flags := {}, op_count := 0 } =
      ({ stack := [VM_TRUE], flags := {}, op_count := 3 }, none) := by
  exact ⟨by decide, by decide⟩

/-- Lemma: `find_public_pair` returns `-1` or a value strictly above the cursor it
was given (the cursor is incremented before every possible return). -/
theorem find_public_pair_gt (E : Env) (strict wit : Bool) (ppp : List Point)
    (count : Nat) :
    ∀ (blobs : List Blob) (ppb_idx r : Int),
      find_public_pair E strict wit ppp count blobs ppb_idx = .ok r →
      r = -1 ∨ ppb_idx < r := by
  intro blobs
  induction blobs with
  | nil =>
    intro ppb_idx r h
    simp only [find_public_pair, Except.ok.injEq] at h
    exact Or.inl h.symm
  | cons b rest ih =>
    intro ppb_idx r h
    simp only [find_public_pair] at h
    split at h
    · split at h
      · exact absurd h (by simp)
      · split at h
        · exact absurd h (by simp)
        · split at h
          · exact absurd h (by simp)
          · split at h
            · simp only [Except.ok.injEq] at h
              omega
            · rcases ih (ppb_idx + 1) r h with h1 | h2
              · exact Or.inl h1
              · exact Or.inr (by omega)
    · simp only [Except.ok.injEq] at h
      exact Or.inl h.symm

/-- Loop invariant of `sig_blob_matches_loop`: a `-1`-free normal result
extends the accumulated index list by a chain of strictly increasing values
that all lie above the incoming cursor. -/
theorem sig_blob_matches_loop_chain (E : Env) (flags : Flags) (strict : Bool)
    (btr pubs : List Blob) :
    ∀ (sigs : List Blob) (cache : List (Nat × Nat)) (indices : List Int)
      (ppb_idx : Int) (final : List Int),
      sig_blob_matches_loop E flags strict btr pubs sigs cache indices ppb_idx =
        .ok final →
      (-1 : Int) ∉ final →
      ∃ suffix, final = indices ++ suffix ∧ List.Chain (· < ·) ppb_idx suffix := by
  intro sigs
  induction sigs with
  | nil =>
    intro cache indices ppb_idx final h _
    simp only [sig_blob_matches_loop, Except.ok.injEq] at h
    exact ⟨[], by simp [h], List.Chain.nil⟩
  | cons sb rest ih =>
    intro cache indices ppb_idx final h hf
    simp only [sig_blob_matches_loop] at h
    split at h
    · split at h
      · simp only [Except.ok.injEq] at h
        exact ⟨[], by simp [h], List.Chain.nil⟩
      · split at h
        · obtain ⟨suffix', hfin, -⟩ := ih _ _ _ _ h hf
          exact absurd (by rw [hfin]; simp : (-1 : Int) ∈ final) hf
        · obtain ⟨suffix', hfin, -⟩ := ih _ _ _ _ h hf
          exact absurd (by rw [hfin]; simp : (-1 : Int) ∈ final) hf
        · exact absurd h (by simp)
        · split at h
          · exact absurd h (by simp)
          · rename_i hfind
            split at h
            · exact absurd h (by simp)
            · rename_i new_idx hnew
              obtain ⟨suffix', hfin, hchain⟩ := ih _ _ _ _ h hf
              rcases find_public_pair_gt E strict flags.witness_pubkeytype _ _ _ _ _
                  hnew with h1 | h2
              · refine absurd (?_ : (-1 : Int) ∈ final) hf
                rw [hfin, h1]
                simp
              · exact ⟨new_idx :: suffix', by rw [hfin]; simp,
                  List.Chain.cons h2 hchain⟩
    · simp only [Except.ok.injEq] at h
      exact ⟨[], by simp [h], List.Chain.nil⟩

/-- A strictly increasing chain below a head passes the adjacent re-check. -/
theorem chain_lt_strictlyIncreasingAdj :
    ∀ (l : List Int) (a : Int), List.Chain (· < ·) a l →
      strictlyIncreasingAdj l = true := by
  intro l
  induction l with
  | nil => intro a _; rfl
  | cons b t ih =>
    intro a h
    cases h with
    | cons hab ht =>
      cases t with
      | nil => rfl
      | cons c t' =>
        have hbc : b < c := by cases ht with | cons h _ => exact h
        have hadj : strictlyIncreasingAdj (c :: t') = true := ih b ht
        simp [strictlyIncreasingAdj, hbc, hadj]

/-- C9.  `find_public_pair` returns `-1` or a value strictly greater than the
cursor it was passed; consequently every `-1`-free index list produced by
`sig_blob_matches` passes `strictlyIncreasingAdj` — the defensive
strictly-increasing re-check of `do_OP_CHECKMULTISIG` — so that re-check never
rejects such a sequence. -/
theorem find_public_pair_strictly_advances :
    (∀ (E : Env) (strict wit : Bool) (ppp : List Point) (count : Nat)
        (blobs : List Blob) (ppb_idx r : Int),
      find_public_pair E strict wit ppp count blobs ppb_idx = .ok r →
      r = -1 ∨ ppb_idx < r) ∧
    (∀ (E : Env) (flags : Flags) (sigs pubs : List Blob) (indices : List Int),
      sig_blob_matches E flags sigs pubs = .ok indices →
      (-1 : Int) ∉ indices → strictlyIncreasingAdj indices = true) := by
  constructor
  · intro E strict wit ppp count blobs ppb_idx r h
    exact find_public_pair_gt E strict wit ppp count blobs ppb_idx r h
  · intro E flags sigs pubs indices h hne
    obtain ⟨suffix, hfin, hchain⟩ := sig_blob_matches_loop_chain E flags
      flags.strictenc sigs pubs sigs [] [] (-1) indices h hne
    rw [List.nil_append] at hfin
    rw [hfin]
    exact chain_lt_strictlyIncreasingAdj suffix (-1) hchain

/-- Witness for C9: both conjuncts applied at concrete runs of the matcher. -/
theorem find_public_pair_strictly_advances_witness :
    ((-1 : Int) = -1 ∨ (-1 : Int) < -1) ∧ strictlyIncreasingAdj [0] = true :=
  ⟨find_public_pair_strictly_advances.1 testEnv false false [0] 0 [[5]] (-1) (-1)
      (by decide),
    find_public_pair_strictly_advances.2 testEnv {} [[1, 1]] [[1]] [0]
      (by decide) (by decide)⟩

end PycoinChecksig
